import Mathlib

/-!
A shallow embedding, in Lean 4, of the two Python modules of this repository:

* `oppia/domain/stats_services.py` — the statistics aggregation service
  (`export_exploration_stats_to_dict`, `get_top_improvable_states`);
* `oppia/controllers/editor.py` — the editor request handlers
  (`NewExploration.post`, `ExplorationHandler.put`, `StateHandler.put`).

External collaborators (the datastore model layer `exp_domain` /
`stats_domain` / `state_models`, the widget registry, `param_type.normalize`)
are modelled as explicit environment records of abstract functions, so the
embedded functions below only fix the control flow and arithmetic that is
actually present in the two source files.

Python values appearing in request payloads are modelled by the inductive
`JVal` (JSON-like values; Python `None` is `JVal.jnull`), with Python
truthiness as `JVal.truthy`.

The threshold comparisons `x > 0.2 * total` of `get_top_improvable_states`
are embedded exactly, as `total < 5 * x` over `Nat` (the idealised
real-number reading of the Python float expression).
-/

/-- Python/JSON-like values: `jnull` is Python `None`. -/
inductive JVal where
  | jnull : JVal
  | jbool (b : Bool) : JVal
  | jstr (s : String) : JVal
  | jnum (n : Int) : JVal
  | jlist (xs : List JVal) : JVal

/-- Python truthiness of a `JVal` (`if value:`). -/
def JVal.truthy : JVal → Bool
  | .jnull => false
  | .jbool b => b
  | .jstr s => !s.isEmpty
  | .jnum n => n != 0
  | .jlist xs => !xs.isEmpty

/-- Python `isinstance(value, basestring)`. -/
def JVal.isStr : JVal → Bool
  | .jstr _ => true
  | _ => false

/-- Whether `pat` occurs as a contiguous sublist of `l` (Python `pat in s`). -/
def listHasInfix (pat : List Char) : List Char → Bool
  | [] => pat.isEmpty
  | c :: rest => pat.isPrefixOf (c :: rest) || listHasInfix pat rest

/-- Python substring test `pat in s`. -/
def strContainsSub (s pat : String) : Bool :=
  listHasInfix pat.toList s.toList

/-- Insert `x` into a list already sorted by strictly descending-or-equal
`key`, keeping `x` in front of later elements of equal key. -/
def insertDescBy {α : Type} (key : α → Nat) (x : α) : List α → List α
  | [] => [x]
  | y :: ys => if key y ≤ key x then x :: y :: ys else y :: insertDescBy key x ys

/-- Stable sort in non-increasing order of `key`.  Python
`sorted(l, key=key, reverse=True)` is a stable descending sort, and a stable
sort for a given preorder is unique, so this insertion sort computes exactly
the list Python's `sorted(..., reverse=True)` returns. -/
def sortDescBy {α : Type} (key : α → Nat) : List α → List α
  | [] => []
  | x :: xs => insertDescBy key x (sortDescBy key xs)

/-- First-match association-list lookup; models a Python dict read whose
entries were inserted in list order with no later overwrites of a key. -/
def alookup {α : Type} (k : String) : List (String × α) → Option α
  | [] => none
  | (k', v) :: rest => if k' = k then some v else alookup k rest

/-! ## Data model for the statistics service (`stats_services.py`)

The datastore entities read by the service are records of the fields the
service actually uses; the service receives them through `StatsEnv`. -/

/-- `stats_services.IMPROVE_TYPE_DEFAULT` (line 28). -/
def IMPROVE_TYPE_DEFAULT : String := "default"

/-- `stats_services.IMPROVE_TYPE_INCOMPLETE` (line 29). -/
def IMPROVE_TYPE_INCOMPLETE : String := "incomplete"

/-- `feconf.END_DEST` (external constant; the pseudo-state marking the end of
an exploration). -/
def END_DEST : String := "END"

/-- `state_models.DEFAULT_RULESPEC_STR` (external constant). -/
def DEFAULT_RULESPEC_STR : String := "Default"

/-- The fields of `stats_domain.StateCounter` read by the service. -/
structure StateCounter where
  first_entry_count : Nat
  total_entry_count : Nat
  no_answer_count : Nat
deriving DecidableEq, Repr

/-- The fields of `stats_domain.StateRuleAnswerLog` read by the service:
`total_answer_count` and the method `get_top_answers(n)` (modelled as the
abstract function `topAnswers`, answers paired with their counts). -/
structure AnswerLog where
  total_answer_count : Nat
  topAnswers : Nat → List (String × Nat)

/-- The default rule spec of an answer handler: only its `dest` is read. -/
structure DefaultRuleSpecData where
  dest : String
deriving DecidableEq, Repr

/-- An answer handler of a state's widget: its default rule spec and the
`str(rule)` strings of its `rule_specs` (only the string forms are read). -/
structure HandlerData where
  default_rule_spec : DefaultRuleSpecData
  rule_specs : List String
deriving DecidableEq, Repr

/-- The fields of a state's widget read by the service. -/
structure WidgetData where
  handlers : List HandlerData
deriving DecidableEq, Repr

/-- The fields of an exploration state read by the service. -/
structure StateData where
  id : String
  name : String
  widget : WidgetData
deriving DecidableEq, Repr

/-- The fields of `exp_domain.Exploration` read by the service; the method
`get_state_by_id` is the abstract function `getState`. -/
structure ExpStats where
  id : String
  title : String
  init_state_id : String
  state_ids : List String
  getState : String → StateData

/-- The external datastore layer, as read by `stats_services`:
`exp_domain.Exploration.get`, `stats_domain.StateCounter.get` and
`stats_domain.StateRuleAnswerLog.get`. -/
structure StatsEnv where
  getExploration : String → ExpStats
  getStateCounter : String → String → StateCounter
  getAnswerLog : String → String → String → AnswerLog

/-- `state.widget.handlers[0].default_rule_spec.dest`
(`stats_services.py` lines 158–159).  Python raises `IndexError` on an empty
handler list; the datastore guarantees at least one handler, and the empty
case is modelled as `none` (so the comparison with the state id is false). -/
def headDefaultDest (s : StateData) : Option String :=
  (s.widget.handlers.head?).map (fun h => h.default_rule_spec.dest)

/-- An entry of `eligible_flags` (`stats_services.py` lines 160–167). -/
structure ImproveFlag where
  rank : Nat
  improve_type : String
deriving DecidableEq, Repr

/-- The `eligible_flags` list built for one state
(`stats_services.py` lines 154–167), given the already-read counters.
The first `if` appends the `IMPROVE_TYPE_DEFAULT` flag, the second the
`IMPROVE_TYPE_INCOMPLETE` flag. -/
def eligibleFlags (default_count no_answer_submitted_count total_entry_count : Nat)
    (state : StateData) : List ImproveFlag :=
  (if total_entry_count < 5 * default_count ∧ headDefaultDest state = some state.id
   then [{ rank := default_count, improve_type := IMPROVE_TYPE_DEFAULT }] else []) ++
  (if total_entry_count < 5 * no_answer_submitted_count
   then [{ rank := no_answer_submitted_count, improve_type := IMPROVE_TYPE_INCOMPLETE }] else [])

/-- The flags a state receives in `get_top_improvable_states`: none at all
when `total_entry_count == 0` (the `continue` at lines 148–149), otherwise
`eligibleFlags`. -/
def stateEligibleFlags (counts : StateCounter) (log : AnswerLog) (state : StateData) : List ImproveFlag :=
  if counts.total_entry_count = 0 then []
  else eligibleFlags log.total_answer_count counts.no_answer_count counts.total_entry_count state

/-- One entry of the `ranked_states` list (`stats_services.py` lines 177–186).
The dict key `'type'` is the field `itype`. -/
structure RankedState where
  exp_id : String
  exp_name : String
  state_id : String
  state_name : String
  rank : Nat
  itype : String
  top_default_answers : List (String × Nat)

/-- The pair `(state_rank, improve_type)` computed at
`stats_services.py` lines 169–175: `(0, '')` when `eligible_flags` is empty,
otherwise rank and type of the first flag after the stable descending sort
on `rank`. -/
def topFlag (eligible_flags : List ImproveFlag) : Nat × String :=
  match sortDescBy ImproveFlag.rank eligible_flags with
  | [] => (0, "")
  | f :: _ => (f.rank, f.improve_type)

/-- Processing of one state inside the loop of `get_top_improvable_states`
(`stats_services.py` lines 141–186): `none` models the `continue` for a state
whose `total_entry_count` is zero, otherwise the dict appended to
`ranked_states`. -/
def stateRankedEntry (env : StatsEnv) (exploration_id : String) (exploration : ExpStats)
    (state_id : String) : Option RankedState :=
  let state_counts := env.getStateCounter exploration_id state_id
  let default_rule_answer_log := env.getAnswerLog exploration.id state_id DEFAULT_RULESPEC_STR
  let total_entry_count := state_counts.total_entry_count
  if total_entry_count = 0 then none
  else
    let default_count := default_rule_answer_log.total_answer_count
    let no_answer_submitted_count := state_counts.no_answer_count
    let state := exploration.getState state_id
    let ranked : Nat × String := topFlag
      (eligibleFlags default_count no_answer_submitted_count total_entry_count state)
    some {
      exp_id := exploration_id
      exp_name := exploration.title
      state_id := state_id
      state_name := state.name
      rank := ranked.1
      itype := ranked.2
      top_default_answers := default_rule_answer_log.topAnswers 5 }

/-- `stats_services.get_top_improvable_states(exploration_ids, N)`
(lines 135–192): collect the per-state entries over all the given
explorations, keep those of nonzero rank, sort them in non-increasing order
of rank (Python's stable `sorted(..., reverse=True)`) and truncate to `N`. -/
def get_top_improvable_states (env : StatsEnv) (exploration_ids : List String) (N : Nat) :
    List RankedState :=
  let ranked_states := exploration_ids.flatMap (fun exploration_id =>
    let exploration := env.getExploration exploration_id
    exploration.state_ids.filterMap (stateRankedEntry env exploration_id exploration))
  let problem_states := sortDescBy RankedState.rank
    (ranked_states.filter (fun state => state.rank ≠ 0))
  problem_states.take N

/-! ## `export_exploration_stats_to_dict` (`stats_services.py` lines 63–132) -/

/-- The value `answers[state.id]` (`stats_services.py` lines 77–88): the
state's name together with, for each `str(rule)` of each handler, the top-10
answers of that rule's answer log. -/
structure AnswersEntry where
  name : String
  rules : List (String × List (String × Nat))
deriving DecidableEq, Repr

/-- The value `rule_stats[rule]` (`stats_services.py` lines 113–116).
The two numeric cells of `chartData` (`rule_count` and
`state_count - rule_count`, in Python int arithmetic, hence `Int`); the
constant header strings of the chart rows are omitted. -/
structure RuleStatEntry where
  answers : List (String × Nat)
  chartData : Int × Int
deriving DecidableEq, Repr

/-- The value `state_stats[state_id]` (`stats_services.py` lines 118–126);
`no_answer_chartdata` keeps the two numeric cells
(`state_count - all_rule_count` and `all_rule_count`). -/
structure StateStatEntry where
  name : String
  count : Nat
  rule_stats : List (String × RuleStatEntry)
  no_answer_chartdata : Int × Int
deriving DecidableEq, Repr

/-- The dict returned by `export_exploration_stats_to_dict`
(`stats_services.py` lines 128–132). -/
structure ExplorationStatsDict where
  num_visits : Nat
  num_completions : Nat
  state_stats : List (String × StateStatEntry)
deriving DecidableEq, Repr

/-- The value `state_counts[state_id]` (`stats_services.py` lines 94–98). -/
structure StateCountEntry where
  name : String
  count : Nat
deriving DecidableEq, Repr

/-- Sum of the per-answer counts of a top-answers list. -/
def answersCountSum (ans : List (String × Nat)) : Nat :=
  (ans.map Prod.snd).sum

/-- `stats_services.export_exploration_stats_to_dict(exploration_id)`
(lines 63–132).  Dicts are modelled as association lists in insertion order;
`state_counts[state_id]` falls back to `0` where Python would raise
`KeyError` (unreachable when `getState` returns states whose `id` is the
queried state id). -/
def export_exploration_stats_to_dict (env : StatsEnv) (exploration_id : String) :
    ExplorationStatsDict :=
  let exploration := env.getExploration exploration_id
  let num_visits :=
    (env.getStateCounter exploration_id exploration.init_state_id).first_entry_count
  let num_completions := (env.getStateCounter exploration_id END_DEST).first_entry_count
  let answers : List (String × AnswersEntry) := exploration.state_ids.map (fun state_id =>
    let state := exploration.getState state_id
    (state.id,
      { name := state.name
        rules := state.widget.handlers.flatMap (fun handler =>
          handler.rule_specs.map (fun rule =>
            (rule, (env.getAnswerLog exploration_id state.id rule).topAnswers 10))) }))
  let state_counts : List (String × StateCountEntry) := exploration.state_ids.map (fun state_id =>
    (state_id,
      { name := (exploration.getState state_id).name
        count := (env.getStateCounter exploration_id state_id).total_entry_count }))
  let state_stats : List (String × StateStatEntry) := answers.map (fun entry =>
    let state_id := entry.1
    let state_count : Nat :=
      match alookup state_id state_counts with
      | some c => c.count
      | none => 0
    let rule_stats : List (String × RuleStatEntry) := entry.2.rules.map (fun r =>
      let rule_count := answersCountSum r.2
      (r.1, { answers := r.2
              chartData := ((rule_count : Int), (state_count : Int) - (rule_count : Int)) }))
    let all_rule_count : Nat := (entry.2.rules.map (fun r => answersCountSum r.2)).sum
    (state_id,
      { name := entry.2.name
        count := state_count
        rule_stats := rule_stats
        no_answer_chartdata :=
          ((state_count : Int) - (all_rule_count : Int), (all_rule_count : Int)) }))
  { num_visits := num_visits
    num_completions := num_completions
    state_stats := state_stats }

/-! ## Editor controllers (`oppia/controllers/editor.py`)

The handlers raise `ValueError`, `InvalidInputException` and
`UnauthorizedUserException`; an embedded handler returns `Except Err`,
where `.ok` carries the value the successful request produces (for the
`put` handlers: the exploration passed to `exploration.put()`). -/

/-- The exception kinds raised by the embedded handlers. -/
inductive Err where
  | valueError (msg : String)
  | invalidInput (msg : String)
  | unauthorized (msg : String)
deriving DecidableEq, Repr

/-- `feconf.DEFAULT_RULE_NAME` (external constant). -/
def DEFAULT_RULE_NAME : String := "Default"

/-- The `ValueError` message of `StateHandler.put` (lines 256–257). -/
def invalidRulesetMsg : String := "Invalid ruleset: the last rule should be a default rule."

/-- The `UnauthorizedUserException` message of `ExplorationHandler.put`
(line 163). -/
def ownerOnlyMsg : String := "Only the exploration owner can add new collaborators."

/-! ### `NewExploration.post` (lines 36–55) -/

/-- External collaborators of `NewExploration.post`:
`feconf.ALLOW_YAML_FILE_UPLOAD`, `exp_services.create_from_yaml`
(arguments: yaml content, user id, title, category) and
`exp_services.create_new` (arguments: user id, title, category); the two
creation functions return the new exploration id. -/
structure NewExpEnv where
  allow_yaml_file_upload : Bool
  create_from_yaml : String → String → JVal → JVal → String
  create_new : String → JVal → JVal → String

/-- `NewExploration.post` (lines 36–55): `title` and `category` are
`self.payload.get(...)` (so `.jnull` when the key is absent), `yaml_content`
is `self.request.get('yaml')` (the empty string when absent); the result is
the JSON object rendered on success. -/
def newExplorationPost (env : NewExpEnv) (user_id : String) (title category : JVal)
    (yaml_content : String) : Except Err (List (String × String)) :=
  if !title.truthy then .error (.invalidInput "No title supplied.")
  else if !category.truthy then .error (.invalidInput "No category chosen.")
  else
    let exploration_id :=
      if yaml_content ≠ "" ∧ env.allow_yaml_file_upload then
        env.create_from_yaml yaml_content user_id title category
      else
        env.create_new user_id title category
    .ok [("explorationId", exploration_id)]

/-! ### `ExplorationHandler.put` (lines 137–172) -/

/-- `param_models.Parameter` as constructed at lines 165–170 (its four
constructor arguments). -/
structure Parameter where
  name : String
  obj_type : String
  description : JVal
  values : JVal

/-- The fields of `exp_domain.Exploration` touched by
`ExplorationHandler.put`. -/
structure Exploration where
  is_public : Bool
  category : JVal
  title : JVal
  image_id : JVal
  editor_ids : List String
  parameters : List Parameter

/-- The payload of `ExplorationHandler.put`: plain-value fields are
`self.payload.get(...)` results (`.jnull` when absent); `image_id` keeps the
key-presence distinction needed by `'image_id' in self.payload` (line 153);
`editors` and `parameters` are typed as the lists the handler iterates over,
`none` when absent (Python `None`). -/
structure ExpPutPayload where
  is_public : JVal := .jnull
  category : JVal := .jnull
  title : JVal := .jnull
  image_id : Option JVal := none
  editors : Option (List String) := none
  parameters : Option (List Parameter) := none

/-- `None if image_id == 'null' else image_id` (line 154). -/
def imageIdValue : JVal → JVal
  | .jstr s => if s = "null" then .jnull else .jstr s
  | v => v

/-- The four plain-field updates of `ExplorationHandler.put`
(lines 147–154): `is_public`, `category`, `title` and `image_id`, applied in
program order. -/
def applySimpleFields (payload : ExpPutPayload) (exploration : Exploration) : Exploration :=
  let e1 := if payload.is_public.truthy then { exploration with is_public := true }
            else exploration
  let e2 := if payload.category.truthy then { e1 with category := payload.category } else e1
  let e3 := if payload.title.truthy then { e2 with title := payload.title } else e2
  match payload.image_id with
  | some v => { e3 with image_id := imageIdValue v }
  | none => e3

/-- The `if parameters:` update of `ExplorationHandler.put` (lines 164–170):
a truthy (non-empty) parameters payload replaces `exploration.parameters` by
the freshly constructed `Parameter` list. -/
def applyParameters (payload : ExpPutPayload) (exploration : Exploration) : Exploration :=
  match payload.parameters with
  | some (item :: items) => { exploration with parameters := item :: items }
  | _ => exploration

/-- `ExplorationHandler.put` (lines 137–172).  `addEditor` is the external
domain method `exploration.add_editor(email)`; `user_id` is
`self.user_id`.  `.ok e` means the handler reached `exploration.put()` with
the exploration in state `e`; `.error` means it raised before persisting.
A truthy `editors` payload (lines 155–163) requires the requesting user to
be the first entry of `editor_ids`; it then clears `editor_ids` and adds
each listed editor through `addEditor`. -/
def explorationPut (addEditor : Exploration → String → Exploration) (user_id : String)
    (payload : ExpPutPayload) (exploration : Exploration) : Except Err Exploration :=
  let e4 := applySimpleFields payload exploration
  match payload.editors with
  | some (email :: emails) =>
    match e4.editor_ids with
    | owner :: _ =>
      if user_id = owner then
        .ok (applyParameters payload
          ((email :: emails).foldl addEditor { e4 with editor_ids := [] }))
      else .error (.unauthorized ownerOnlyMsg)
    | [] => .error (.unauthorized ownerOnlyMsg)
  | _ => .ok (applyParameters payload e4)

/-- The persisted state after one `ExplorationHandler.put` request: the
exploration passed to `exploration.put()` on success, the unchanged stored
exploration when the handler raised before persisting. -/
def putStep (addEditor : Exploration → String → Exploration) (user_id : String)
    (payload : ExpPutPayload) (exploration : Exploration) : Exploration :=
  match explorationPut addEditor user_id payload exploration with
  | .ok e => e
  | .error _ => exploration

/-- The persisted state after a sequence of `ExplorationHandler.put`
requests, each given as a pair of requesting user id and payload. -/
def putSeq (addEditor : Exploration → String → Exploration)
    (reqs : List (String × ExpPutPayload)) (exploration : Exploration) : Exploration :=
  reqs.foldl (fun e r => putStep addEditor r.1 r.2 e) exploration

/-! ### `StateHandler.put`, interactive-ruleset normalization (lines 234–281)

The block guarded by `if interactive_rulesets:` resets
`state.widget.handlers` to a single `submit` handler with an empty
`rule_specs` list and then processes the rules of
`interactive_rulesets['submit']` in order, appending each processed rule;
the first exception raised aborts the request.  The external lookup chain
`widget_domain.Registry.get_widget_by_id` /
`generic_widget.get_rule_by_name('submit', name)` /
`rule_domain.get_obj_type_for_param_name(matched_rule, param_name)` /
`param_type.normalize(value)` is modelled as one abstract total function
`normalize : rule name → param name → value → JVal` (returning `.jnull`
where Python returns `None`). -/

/-- A rule dict of `interactive_rulesets['submit']`: the keys read by the
handler (`description` via `rule['description']`, the rest via
`rule.get(...)`). -/
structure RuleDict where
  description : String
  name : String
  inputs : List (String × JVal)
  dest : JVal
  feedback : JVal

/-- `state_models.RuleSpec` as constructed at lines 248–251. -/
structure RuleSpecModel where
  name : String
  inputs : List (String × JVal)
  dest : JVal
  feedback : JVal

/-- The value bound to `normalized_param` for one input parameter
(lines 264–272): the parameter is normalized unless it is a string
containing both substrings of two braces (written here as escapes). -/
def normalizedParamValue (normalize : String → String → JVal → JVal)
    (rule_name param_name : String) (value : JVal) : JVal :=
  match value with
  | .jstr s =>
    if strContainsSub s "\x7b\x7b" && strContainsSub s "\x7d\x7d" then .jstr s
    else normalize rule_name param_name (.jstr s)
  | v => normalize rule_name param_name v

/-- Normalization of one input parameter (lines 264–279): raises
`InvalidInputException` when the normalized value is `None` (the Python
message interpolates the value and the type name; the model keeps a fixed
message). -/
def normalizeParam (normalize : String → String → JVal → JVal)
    (rule_name param_name : String) (value : JVal) : Except Err JVal :=
  match normalizedParamValue normalize rule_name param_name value with
  | .jnull => .error (.invalidInput "wrong type")
  | v => .ok v

/-- The loop over `state_rule.inputs` (lines 263–279), replacing each value
by its normalized form; the first `InvalidInputException` aborts. -/
def normalizeInputs (normalize : String → String → JVal → JVal) (rule_name : String) :
    List (String × JVal) → Except Err (List (String × JVal))
  | [] => .ok []
  | (param_name, value) :: rest =>
    match normalizeParam normalize rule_name param_name value with
    | .error e => .error e
    | .ok nv =>
      match normalizeInputs normalize rule_name rest with
      | .error e => .error e
      | .ok nrest => .ok ((param_name, nv) :: nrest)

/-- Processing of the rule at index `i` of a ruleset of length `n`
(lines 246–279): a rule whose `description` is the default rule name must be
last and named like the default rule (else `ValueError`, lines 253–257); any
other rule has its inputs normalized (lines 258–279). -/
def processRule (normalize : String → String → JVal → JVal) (n i : Nat) (rule : RuleDict) :
    Except Err RuleSpecModel :=
  let state_rule : RuleSpecModel :=
    { name := rule.name, inputs := rule.inputs, dest := rule.dest, feedback := rule.feedback }
  if rule.description = DEFAULT_RULE_NAME then
    if i ≠ n - 1 ∨ rule.name ≠ DEFAULT_RULE_NAME then
      .error (.valueError invalidRulesetMsg)
    else .ok state_rule
  else
    match normalizeInputs normalize state_rule.name rule.inputs with
    | .error e => .error e
    | .ok inputs => .ok { state_rule with inputs := inputs }

/-- Processing of the rules from index `i` on, in order; the first raised
exception aborts (Python `for rule_ind in range(len(ruleset))`). -/
def processFrom (normalize : String → String → JVal → JVal) (n : Nat) :
    Nat → List RuleDict → Except Err (List RuleSpecModel)
  | _, [] => .ok []
  | i, rule :: rest =>
    match processRule normalize n i rule with
    | .error e => .error e
    | .ok state_rule =>
      match processFrom normalize n (i + 1) rest with
      | .error e => .error e
      | .ok others => .ok (state_rule :: others)

/-- The whole `if interactive_rulesets:` block (lines 234–281): on success,
the resulting `state.widget.handlers[0].rule_specs` list. -/
def processRuleset (normalize : String → String → JVal → JVal) (ruleset : List RuleDict) :
    Except Err (List RuleSpecModel) :=
  processFrom normalize ruleset.length 0 ruleset

/-! ## Properties of the stable descending sort -/

theorem mem_insertDescBy {α : Type} (key : α → Nat) (x a : α) (l : List α) :
    a ∈ insertDescBy key x l ↔ a = x ∨ a ∈ l := by
  induction l with
  | nil => simp [insertDescBy]
  | cons y ys ih =>
    simp only [insertDescBy]
    split
    · simp [List.mem_cons]
    · simp only [List.mem_cons, ih]
      tauto

theorem mem_sortDescBy {α : Type} (key : α → Nat) (a : α) (l : List α) :
    a ∈ sortDescBy key l ↔ a ∈ l := by
  induction l with
  | nil => simp [sortDescBy]
  | cons x xs ih =>
    simp only [sortDescBy, mem_insertDescBy, ih, List.mem_cons]

theorem pairwise_insertDescBy {α : Type} (key : α → Nat) (x : α) (l : List α)
    (h : l.Pairwise (fun a b => key b ≤ key a)) :
    (insertDescBy key x l).Pairwise (fun a b => key b ≤ key a) := by
  induction l with
  | nil => simp [insertDescBy]
  | cons y ys ih =>
    rw [List.pairwise_cons] at h
    simp only [insertDescBy]
    split
    · rename_i hle
      rw [List.pairwise_cons]
      refine ⟨?_, List.pairwise_cons.mpr h⟩
      intro b hb
      rcases List.mem_cons.mp hb with rfl | hb
      · exact hle
      · exact le_trans (h.1 b hb) hle
    · rename_i hgt
      push_neg at hgt
      rw [List.pairwise_cons]
      refine ⟨?_, ih h.2⟩
      intro b hb
      rcases (mem_insertDescBy key x b ys).mp hb with rfl | hb
      · exact le_of_lt hgt
      · exact h.1 b hb

theorem pairwise_sortDescBy {α : Type} (key : α → Nat) (l : List α) :
    (sortDescBy key l).Pairwise (fun a b => key b ≤ key a) := by
  induction l with
  | nil => simp [sortDescBy]
  | cons x xs ih => exact pairwise_insertDescBy key x _ ih

/-- C1.  `get_top_improvable_states(exploration_ids, N)` returns at most `N`
entries, every returned entry has a nonzero `rank`, and the returned list is
sorted in non-increasing order of `rank`. -/
theorem claim_c1_top_improvable_topN (env : StatsEnv) (exploration_ids : List String) (N : Nat) :
    (get_top_improvable_states env exploration_ids N).length ≤ N
    ∧ (∀ s ∈ get_top_improvable_states env exploration_ids N, s.rank ≠ 0)
    ∧ (get_top_improvable_states env exploration_ids N).Pairwise
        (fun a b => b.rank ≤ a.rank) := by
  refine ⟨List.length_take_le _ _, ?_, ?_⟩
  · intro s hs
    have h1 := List.mem_of_mem_take hs
    rw [mem_sortDescBy] at h1
    have h2 := (List.mem_filter.mp h1).2
    simpa using h2
  · exact List.Pairwise.sublist (List.take_sublist _ _) (pairwise_sortDescBy _ _)

/-! ## Flag-level lemmas for claims C2 and C9 -/

theorem topFlag_pair (f g : ImproveFlag) :
    topFlag [f, g] = if g.rank ≤ f.rank then (f.rank, f.improve_type)
                     else (g.rank, g.improve_type) := by
  by_cases h : g.rank ≤ f.rank <;> simp [topFlag, sortDescBy, insertDescBy, h]

theorem stateRankedEntry_some {env : StatsEnv} {eid : String} {exp : ExpStats} {sid : String}
    {entry : RankedState} (h : stateRankedEntry env eid exp sid = some entry) :
    (env.getStateCounter eid sid).total_entry_count ≠ 0
    ∧ entry.exp_id = eid ∧ entry.state_id = sid
    ∧ entry.rank = (topFlag (eligibleFlags
        (env.getAnswerLog exp.id sid DEFAULT_RULESPEC_STR).total_answer_count
        (env.getStateCounter eid sid).no_answer_count
        (env.getStateCounter eid sid).total_entry_count (exp.getState sid))).1
    ∧ entry.itype = (topFlag (eligibleFlags
        (env.getAnswerLog exp.id sid DEFAULT_RULESPEC_STR).total_answer_count
        (env.getStateCounter eid sid).no_answer_count
        (env.getStateCounter eid sid).total_entry_count (exp.getState sid))).2 := by
  unfold stateRankedEntry at h
  by_cases h0 : (env.getStateCounter eid sid).total_entry_count = 0
  · rw [if_pos h0] at h
    exact absurd h (by simp)
  · rw [if_neg h0] at h
    refine ⟨h0, ?_⟩
    cases h.symm
    exact ⟨rfl, rfl, rfl, rfl⟩

/-- C9.  When a state passes both the default-rule threshold and the
no-answer threshold, its reported `rank` is the larger of the default-rule
answer count and the no-answer count, and on a tie the reported type is
`IMPROVE_TYPE_DEFAULT` (the sort over the two eligible flags is stable and
the default flag is appended first). -/
theorem claim_c9_both_flags_rank (env : StatsEnv) (eid : String) (exp : ExpStats) (sid : String)
    (h0 : (env.getStateCounter eid sid).total_entry_count ≠ 0)
    (hdflt : (env.getStateCounter eid sid).total_entry_count <
      5 * (env.getAnswerLog exp.id sid DEFAULT_RULESPEC_STR).total_answer_count)
    (hdest : headDefaultDest (exp.getState sid) = some (exp.getState sid).id)
    (hinc : (env.getStateCounter eid sid).total_entry_count <
      5 * (env.getStateCounter eid sid).no_answer_count) :
    ∃ entry, stateRankedEntry env eid exp sid = some entry
      ∧ entry.rank = max (env.getAnswerLog exp.id sid DEFAULT_RULESPEC_STR).total_answer_count
          (env.getStateCounter eid sid).no_answer_count
      ∧ ((env.getAnswerLog exp.id sid DEFAULT_RULESPEC_STR).total_answer_count =
            (env.getStateCounter eid sid).no_answer_count →
          entry.itype = IMPROVE_TYPE_DEFAULT) := by
  have hflags : eligibleFlags
      (env.getAnswerLog exp.id sid DEFAULT_RULESPEC_STR).total_answer_count
      (env.getStateCounter eid sid).no_answer_count
      (env.getStateCounter eid sid).total_entry_count (exp.getState sid) =
      [{ rank := (env.getAnswerLog exp.id sid DEFAULT_RULESPEC_STR).total_answer_count,
         improve_type := IMPROVE_TYPE_DEFAULT },
       { rank := (env.getStateCounter eid sid).no_answer_count,
         improve_type := IMPROVE_TYPE_INCOMPLETE }] := by
    unfold eligibleFlags
    rw [if_pos ⟨hdflt, hdest⟩, if_pos hinc]
    rfl
  by_cases hc : (env.getStateCounter eid sid).no_answer_count ≤
      (env.getAnswerLog exp.id sid DEFAULT_RULESPEC_STR).total_answer_count
  · simp only [stateRankedEntry, hflags, topFlag_pair, if_neg h0, if_pos hc]
    refine ⟨_, rfl, ?_, fun _ => rfl⟩
    exact (Nat.max_eq_left hc).symm
  · simp only [stateRankedEntry, hflags, topFlag_pair, if_neg h0, if_neg hc]
    refine ⟨_, rfl, ?_, ?_⟩
    · exact (Nat.max_eq_right (Nat.le_of_not_le hc)).symm
    · intro heq
      exact absurd (heq ▸ le_refl _) hc

/-! ## Claim C2: flag conditions -/

/-- A state whose default rule points back to itself. -/
def selfLoopState : StateData :=
  { id := "s", name := "s",
    widget := { handlers := [{ default_rule_spec := { dest := "s" }, rule_specs := [] }] } }

/-- A counter record with every count zero. -/
def zeroCounter : StateCounter :=
  { first_entry_count := 0, total_entry_count := 0, no_answer_count := 0 }

/-- An answer log holding one default-rule answer. -/
def oneAnswerLog : AnswerLog :=
  { total_answer_count := 1, topAnswers := fun _ => [] }

/-- C2, counterexample.  For a state with `total_entry_count = 0` and one
default-rule answer whose default rule points to the state itself, the
claimed equivalence fails: the percentage condition
`default_count > 0.2 * total_entry_count` holds (`0 < 5 * 1`) and the
destination condition holds, yet the state is skipped by the
`total_entry_count == 0` `continue` and receives no flag at all. -/
theorem claim_c2_counterexample :
    ¬ ((∃ f ∈ stateEligibleFlags zeroCounter oneAnswerLog selfLoopState,
          f.improve_type = IMPROVE_TYPE_DEFAULT) ↔
       (zeroCounter.total_entry_count < 5 * oneAnswerLog.total_answer_count ∧
        headDefaultDest selfLoopState = some selfLoopState.id)) := by
  decide

/-- C2, amended.  For a state whose `total_entry_count` is nonzero, the
`IMPROVE_TYPE_DEFAULT` flag is received exactly when the default-rule answer
count exceeds 0.2 times the total entry count and the default rule points to
the state itself, and the `IMPROVE_TYPE_INCOMPLETE` flag exactly when the
no-answer count exceeds 0.2 times the total entry count; moreover every
state returned by `get_top_improvable_states` meets at least one of the two
conditions. -/
theorem claim_c2_flag_conditions (c : StateCounter) (l : AnswerLog) (s : StateData)
    (h0 : c.total_entry_count ≠ 0) :
    ((∃ f ∈ stateEligibleFlags c l s, f.improve_type = IMPROVE_TYPE_DEFAULT) ↔
      (c.total_entry_count < 5 * l.total_answer_count ∧ headDefaultDest s = some s.id))
    ∧ ((∃ f ∈ stateEligibleFlags c l s, f.improve_type = IMPROVE_TYPE_INCOMPLETE) ↔
      c.total_entry_count < 5 * c.no_answer_count)
    ∧ (∀ (env : StatsEnv) (ids : List String) (N : Nat) (entry : RankedState),
        entry ∈ get_top_improvable_states env ids N →
        ((env.getStateCounter entry.exp_id entry.state_id).total_entry_count <
            5 * (env.getAnswerLog (env.getExploration entry.exp_id).id entry.state_id
                  DEFAULT_RULESPEC_STR).total_answer_count ∧
          headDefaultDest ((env.getExploration entry.exp_id).getState entry.state_id) =
            some ((env.getExploration entry.exp_id).getState entry.state_id).id) ∨
        (env.getStateCounter entry.exp_id entry.state_id).total_entry_count <
          5 * (env.getStateCounter entry.exp_id entry.state_id).no_answer_count) := by
  refine ⟨?_, ?_, ?_⟩
  · simp only [stateEligibleFlags, if_neg h0, eligibleFlags]
    by_cases h1 : c.total_entry_count < 5 * l.total_answer_count ∧
        headDefaultDest s = some s.id <;>
      by_cases h2 : c.total_entry_count < 5 * c.no_answer_count <;>
      simp [h1, h2, IMPROVE_TYPE_DEFAULT, IMPROVE_TYPE_INCOMPLETE]
  · simp only [stateEligibleFlags, if_neg h0, eligibleFlags]
    by_cases h1 : c.total_entry_count < 5 * l.total_answer_count ∧
        headDefaultDest s = some s.id <;>
      by_cases h2 : c.total_entry_count < 5 * c.no_answer_count <;>
      simp [h1, h2, IMPROVE_TYPE_DEFAULT, IMPROVE_TYPE_INCOMPLETE]
  · intro env ids N entry hmem
    have h1 := List.mem_of_mem_take hmem
    rw [mem_sortDescBy] at h1
    obtain ⟨h2, hrank⟩ := List.mem_filter.mp h1
    rw [List.mem_flatMap] at h2
    obtain ⟨eid, _, h3⟩ := h2
    rw [List.mem_filterMap] at h3
    obtain ⟨sid, _, hsome⟩ := h3
    obtain ⟨_, hexp, hsid, hrk, _⟩ := stateRankedEntry_some hsome
    subst hexp; subst hsid
    by_cases hA : (env.getStateCounter entry.exp_id entry.state_id).total_entry_count <
        5 * (env.getAnswerLog (env.getExploration entry.exp_id).id entry.state_id
              DEFAULT_RULESPEC_STR).total_answer_count ∧
        headDefaultDest ((env.getExploration entry.exp_id).getState entry.state_id) =
          some ((env.getExploration entry.exp_id).getState entry.state_id).id
    · exact Or.inl hA
    · by_cases hB : (env.getStateCounter entry.exp_id entry.state_id).total_entry_count <
          5 * (env.getStateCounter entry.exp_id entry.state_id).no_answer_count
      · exact Or.inr hB
      · exfalso
        rw [eligibleFlags, if_neg hA, if_neg hB] at hrk
        simp [topFlag, sortDescBy] at hrk
        simp [hrk] at hrank

/-! ## Claim C7: the exported statistics dict -/

theorem alookup_map_of_fst {β : Type} (f : String → String × β) (l : List String) (k : String)
    (hf : ∀ sid ∈ l, (f sid).1 = sid) :
    alookup k (l.map f) = if k ∈ l then some (f k).2 else none := by
  induction l with
  | nil => simp [alookup]
  | cons x xs ih =>
    have hx : (f x).1 = x := hf x (List.mem_cons_self x xs)
    simp only [List.map_cons, alookup, hx]
    by_cases hxk : x = k
    · subst hxk
      simp
    · rw [if_neg hxk, ih (fun sid hs => hf sid (List.mem_cons_of_mem x hs))]
      have hne : ¬ k = x := fun h => hxk h.symm
      by_cases hk : k ∈ xs
      · rw [if_pos hk, if_pos (List.mem_cons.mpr (Or.inr hk))]
      · rw [if_neg hk, if_neg (by simp [List.mem_cons, hne, hk])]

/-- C7.  `export_exploration_stats_to_dict` reports as `num_visits` the
first-entry count of the initial state's counter, as `num_completions` the
first-entry count of the `END_DEST` counter, and its `state_stats` dict has
one entry per state of the exploration carrying that state's name and total
entry count (and no other entries).  The hypothesis `hid` is the datastore
guarantee that `get_state_by_id` returns the state with the queried id. -/
theorem claim_c7_export_stats (env : StatsEnv) (exploration_id : String)
    (hid : ∀ sid ∈ (env.getExploration exploration_id).state_ids,
      ((env.getExploration exploration_id).getState sid).id = sid) :
    (export_exploration_stats_to_dict env exploration_id).num_visits =
      (env.getStateCounter exploration_id
        (env.getExploration exploration_id).init_state_id).first_entry_count
    ∧ (export_exploration_stats_to_dict env exploration_id).num_completions =
      (env.getStateCounter exploration_id END_DEST).first_entry_count
    ∧ (∀ sid ∈ (env.getExploration exploration_id).state_ids,
        ∃ e, alookup sid (export_exploration_stats_to_dict env exploration_id).state_stats =
            some e
          ∧ e.name = ((env.getExploration exploration_id).getState sid).name
          ∧ e.count = (env.getStateCounter exploration_id sid).total_entry_count)
    ∧ (∀ sid, sid ∉ (env.getExploration exploration_id).state_ids →
        alookup sid (export_exploration_stats_to_dict env exploration_id).state_stats =
          none) := by
  refine ⟨rfl, rfl, ?_, ?_⟩
  · intro sid hsid
    simp only [export_exploration_stats_to_dict, List.map_map]
    rw [alookup_map_of_fst _ _ _ (fun s hs => hid s hs), if_pos hsid]
    refine ⟨_, rfl, rfl, ?_⟩
    show (match alookup ((env.getExploration exploration_id).getState sid).id
        ((env.getExploration exploration_id).state_ids.map (fun state_id =>
          (state_id,
            ({ name := ((env.getExploration exploration_id).getState state_id).name
               count := (env.getStateCounter exploration_id state_id).total_entry_count } :
              StateCountEntry)))) with
      | some c => c.count
      | none => 0) = (env.getStateCounter exploration_id sid).total_entry_count
    rw [hid sid hsid, alookup_map_of_fst _ _ _ (fun _ _ => rfl), if_pos hsid]
  · intro sid hsid
    simp only [export_exploration_stats_to_dict, List.map_map]
    rw [alookup_map_of_fst _ _ _ (fun s hs => hid s hs), if_neg hsid]

/-! ## Claim C3: the default rule must be last -/

theorem processFrom_ok_each (normalize : String → String → JVal → JVal) (n : Nat) :
    ∀ (rules : List RuleDict) (k : Nat) (res : List RuleSpecModel),
      processFrom normalize n k rules = .ok res →
      ∀ j r, rules[j]? = some r → ∃ s, processRule normalize n (k + j) r = .ok s := by
  intro rules
  induction rules with
  | nil =>
    intro k res _ j r hj
    simp at hj
  | cons hd tl ih =>
    intro k res h j r hj
    cases hhd : processRule normalize n k hd with
    | error e =>
      rw [processFrom, hhd] at h
      exact absurd h (by simp)
    | ok s =>
      rw [processFrom, hhd] at h
      cases htl : processFrom normalize n (k + 1) tl with
      | error e =>
        rw [htl] at h
        exact absurd h (by simp)
      | ok others =>
        rw [htl] at h
        cases j with
        | zero =>
          rw [List.getElem?_cons_zero] at hj
          cases hj
          exact ⟨s, by rw [Nat.add_zero]; exact hhd⟩
        | succ j' =>
          rw [List.getElem?_cons_succ] at hj
          obtain ⟨s', hs'⟩ := ih (k + 1) others htl j' r hj
          exact ⟨s', by rw [show k + (j' + 1) = k + 1 + j' by omega]; exact hs'⟩

theorem processFrom_error_of_first (normalize : String → String → JVal → JVal) (n : Nat) :
    ∀ (rules : List RuleDict) (k i : Nat) (r : RuleDict) (e : Err),
      rules[i]? = some r → processRule normalize n (k + i) r = .error e →
      (∀ j rj, j < i → rules[j]? = some rj → ∃ s, processRule normalize n (k + j) rj = .ok s) →
      processFrom normalize n k rules = .error e := by
  intro rules
  induction rules with
  | nil =>
    intro k i r e hi
    simp at hi
  | cons hd tl ih =>
    intro k i r e hi herr hpre
    cases i with
    | zero =>
      rw [List.getElem?_cons_zero] at hi
      cases hi
      rw [Nat.add_zero] at herr
      rw [processFrom, herr]
    | succ i' =>
      obtain ⟨s, hs⟩ := hpre 0 hd (Nat.succ_pos i') List.getElem?_cons_zero
      rw [Nat.add_zero] at hs
      rw [processFrom, hs]
      rw [List.getElem?_cons_succ] at hi
      have herr' : processRule normalize n (k + 1 + i') r = .error e := by
        rw [show k + 1 + i' = k + (i' + 1) by omega]
        exact herr
      have hpre' : ∀ j rj, j < i' → tl[j]? = some rj →
          ∃ s, processRule normalize n (k + 1 + j) rj = .ok s := by
        intro j rj hj hjr
        obtain ⟨s', hs'⟩ := hpre (j + 1) rj (Nat.succ_lt_succ hj)
          (by rw [List.getElem?_cons_succ]; exact hjr)
        exact ⟨s', by rw [show k + 1 + j = k + (j + 1) by omega]; exact hs'⟩
      rw [ih (k + 1) i' r e hi herr' hpre']

/-- C3.  In the ruleset block of `StateHandler.put`, a rule whose
`description` is the default rule name must sit at the last index and carry
the default rule name as its `name`: if the whole ruleset processes
successfully, every such rule satisfies both conditions, and if such a rule
violates either condition (and no earlier rule raises first), the block
raises the `ValueError` about the last rule of the ruleset. -/
theorem claim_c3_default_rule_check (normalize : String → String → JVal → JVal)
    (ruleset : List RuleDict) (i : Nat) (rule : RuleDict)
    (hget : ruleset[i]? = some rule) (hdesc : rule.description = DEFAULT_RULE_NAME) :
    ((∃ rs, processRuleset normalize ruleset = .ok rs) →
      i = ruleset.length - 1 ∧ rule.name = DEFAULT_RULE_NAME)
    ∧ ((i ≠ ruleset.length - 1 ∨ rule.name ≠ DEFAULT_RULE_NAME) →
      (∀ j rj, j < i → ruleset[j]? = some rj →
        ∃ s, processRule normalize ruleset.length j rj = .ok s) →
      processRuleset normalize ruleset = .error (.valueError invalidRulesetMsg)) := by
  constructor
  · rintro ⟨rs, hok⟩
    obtain ⟨s, hs⟩ := processFrom_ok_each normalize ruleset.length ruleset 0 rs hok i rule hget
    rw [Nat.zero_add] at hs
    by_cases hv : i = ruleset.length - 1 ∧ rule.name = DEFAULT_RULE_NAME
    · exact hv
    · exfalso
      have hviol : i ≠ ruleset.length - 1 ∨ rule.name ≠ DEFAULT_RULE_NAME := by
        rcases Decidable.not_and_iff_or_not.mp hv with h | h
        · exact Or.inl h
        · exact Or.inr h
      rw [processRule, if_pos hdesc, if_pos hviol] at hs
      exact absurd hs (by simp)
  · intro hviol hpre
    have herr : processRule normalize ruleset.length (0 + i) rule =
        .error (.valueError invalidRulesetMsg) := by
      rw [Nat.zero_add, processRule, if_pos hdesc, if_pos hviol]
    exact processFrom_error_of_first normalize ruleset.length ruleset 0 i rule _ hget herr
      (fun j rj hj hjr => by rw [Nat.zero_add]; exact hpre j rj hj hjr)

/-! ## Claim C4: parameter normalization of non-default rules -/

theorem normalizeParam_ok_of_ne (normalize : String → String → JVal → JVal)
    (rule_name param_name : String) (value : JVal)
    (h : normalizedParamValue normalize rule_name param_name value ≠ .jnull) :
    normalizeParam normalize rule_name param_name value =
      .ok (normalizedParamValue normalize rule_name param_name value) := by
  cases hv : normalizedParamValue normalize rule_name param_name value with
  | jnull => exact absurd hv h
  | jbool b => simp [normalizeParam, hv]
  | jstr s => simp [normalizeParam, hv]
  | jnum m => simp [normalizeParam, hv]
  | jlist xs => simp [normalizeParam, hv]

theorem normalizeParam_error_of_eq (normalize : String → String → JVal → JVal)
    (rule_name param_name : String) (value : JVal)
    (h : normalizedParamValue normalize rule_name param_name value = .jnull) :
    normalizeParam normalize rule_name param_name value =
      .error (.invalidInput "wrong type") := by
  simp [normalizeParam, h]

theorem normalizeInputs_ok (normalize : String → String → JVal → JVal) (rule_name : String)
    (inputs : List (String × JVal))
    (h : ∀ p ∈ inputs, normalizedParamValue normalize rule_name p.1 p.2 ≠ .jnull) :
    normalizeInputs normalize rule_name inputs =
      .ok (inputs.map (fun p => (p.1, normalizedParamValue normalize rule_name p.1 p.2))) := by
  induction inputs with
  | nil => rfl
  | cons p rest ih =>
    obtain ⟨k, v⟩ := p
    rw [normalizeInputs,
      normalizeParam_ok_of_ne normalize rule_name k v (h (k, v) (List.mem_cons_self _ _)),
      ih (fun q hq => h q (List.mem_cons_of_mem _ hq))]
    rfl

theorem normalizeInputs_error (normalize : String → String → JVal → JVal) (rule_name : String)
    (inputs : List (String × JVal))
    (h : ∃ p ∈ inputs, normalizedParamValue normalize rule_name p.1 p.2 = .jnull) :
    normalizeInputs normalize rule_name inputs = .error (.invalidInput "wrong type") := by
  induction inputs with
  | nil => simp at h
  | cons p rest ih =>
    obtain ⟨k, v⟩ := p
    by_cases hv : normalizedParamValue normalize rule_name k v = .jnull
    · rw [normalizeInputs, normalizeParam_error_of_eq normalize rule_name k v hv]
    · obtain ⟨q, hq, hqn⟩ := h
      rcases List.mem_cons.mp hq with rfl | hq'
      · exact absurd hqn hv
      · rw [normalizeInputs, normalizeParam_ok_of_ne normalize rule_name k v hv,
          ih ⟨q, hq', hqn⟩]

/-- C4.  For a non-default rule, every input parameter is replaced by its
normalized value — the external `param_type.normalize(value)`, except that a
string containing both double-brace substrings is stored unchanged (this is
`normalizedParamValue`) — and if some parameter normalizes to `None`, the
rule processing raises `InvalidInputException` instead of producing a stored
rule. -/
theorem claim_c4_rule_normalization (normalize : String → String → JVal → JVal)
    (n i : Nat) (rule : RuleDict) (hdesc : rule.description ≠ DEFAULT_RULE_NAME) :
    ((∀ p ∈ rule.inputs, normalizedParamValue normalize rule.name p.1 p.2 ≠ .jnull) →
      processRule normalize n i rule = .ok
        { name := rule.name
          inputs := rule.inputs.map
            (fun p => (p.1, normalizedParamValue normalize rule.name p.1 p.2))
          dest := rule.dest
          feedback := rule.feedback })
    ∧ ((∃ p ∈ rule.inputs, normalizedParamValue normalize rule.name p.1 p.2 = .jnull) →
      processRule normalize n i rule = .error (.invalidInput "wrong type")) := by
  constructor
  · intro h
    simp only [processRule, if_neg hdesc]
    rw [normalizeInputs_ok normalize rule.name rule.inputs h]
  · intro h
    simp only [processRule, if_neg hdesc]
    rw [normalizeInputs_error normalize rule.name rule.inputs h]

/-! ## Claim C5: validation in `NewExploration.post` -/

/-- A concrete creation environment for witnesses. -/
def sampleNewEnv : NewExpEnv :=
  { allow_yaml_file_upload := false
    create_from_yaml := fun _ _ _ _ => "id-yaml"
    create_new := fun _ _ _ => "id-new" }

/-- C5, counterexample.  A request whose payload lacks both the title and the
category raises `InvalidInputException('No title supplied.')`, not
`InvalidInputException('No category chosen.')` — so the claim's clause that
every request lacking a category raises the category error fails. -/
theorem claim_c5_counterexample :
    newExplorationPost sampleNewEnv "user" .jnull .jnull "" =
      .error (.invalidInput "No title supplied.")
    ∧ newExplorationPost sampleNewEnv "user" .jnull .jnull "" ≠
      .error (.invalidInput "No category chosen.") := by
  constructor
  · rfl
  · intro h
    rw [show newExplorationPost sampleNewEnv "user" .jnull .jnull "" =
      .error (.invalidInput "No title supplied.") from rfl] at h
    simp at h

/-- C5, amended.  `NewExploration.post` validates before creating anything:
a request with a falsy (absent or empty) title raises
`InvalidInputException('No title supplied.')`; a request with a truthy title
but a falsy category raises `InvalidInputException('No category chosen.')`;
and when both are truthy it creates an exploration and returns its id under
the key `explorationId`. -/
theorem claim_c5_new_exploration_validation (env : NewExpEnv) (user_id : String)
    (title category : JVal) (yaml_content : String) :
    (title.truthy = false →
      newExplorationPost env user_id title category yaml_content =
        .error (.invalidInput "No title supplied."))
    ∧ (title.truthy = true → category.truthy = false →
      newExplorationPost env user_id title category yaml_content =
        .error (.invalidInput "No category chosen."))
    ∧ (title.truthy = true → category.truthy = true →
      ∃ exploration_id, newExplorationPost env user_id title category yaml_content =
        .ok [("explorationId", exploration_id)]) := by
  refine ⟨?_, ?_, ?_⟩
  · intro ht
    simp [newExplorationPost, ht]
  · intro ht hc
    simp [newExplorationPost, ht, hc]
  · intro ht hc
    refine ⟨if yaml_content ≠ "" ∧ env.allow_yaml_file_upload then
        env.create_from_yaml yaml_content user_id title category
      else env.create_new user_id title category, ?_⟩
    simp [newExplorationPost, ht, hc]

/-! ## Frame lemmas for `ExplorationHandler.put` -/

theorem applySimpleFields_editor_ids (p : ExpPutPayload) (e : Exploration) :
    (applySimpleFields p e).editor_ids = e.editor_ids := by
  simp only [applySimpleFields]
  cases p.image_id <;> split_ifs <;> rfl

theorem applySimpleFields_is_public (p : ExpPutPayload) (e : Exploration) :
    (applySimpleFields p e).is_public = (p.is_public.truthy || e.is_public) := by
  simp only [applySimpleFields]
  cases p.image_id <;> split_ifs <;> simp_all

theorem applySimpleFields_image_id_none (p : ExpPutPayload) (e : Exploration)
    (h : p.image_id = none) : (applySimpleFields p e).image_id = e.image_id := by
  simp only [applySimpleFields, h]
  split_ifs <;> rfl

theorem applySimpleFields_image_id_some (p : ExpPutPayload) (e : Exploration) (v : JVal)
    (h : p.image_id = some v) : (applySimpleFields p e).image_id = imageIdValue v := by
  simp only [applySimpleFields, h]

theorem applyParameters_is_public (p : ExpPutPayload) (e : Exploration) :
    (applyParameters p e).is_public = e.is_public := by
  simp only [applyParameters]
  cases hp : p.parameters with
  | none => rfl
  | some l => cases l <;> rfl

theorem applyParameters_image_id (p : ExpPutPayload) (e : Exploration) :
    (applyParameters p e).image_id = e.image_id := by
  simp only [applyParameters]
  cases hp : p.parameters with
  | none => rfl
  | some l => cases l <;> rfl

theorem foldl_addEditor_field {β : Type} (f : Exploration → β)
    (addEditor : Exploration → String → Exploration)
    (h : ∀ e m, f (addEditor e m) = f e) :
    ∀ (l : List String) (e : Exploration), f (l.foldl addEditor e) = f e := by
  intro l
  induction l with
  | nil => intro e; rfl
  | cons x xs ih => intro e; rw [List.foldl_cons, ih, h]

/-- C6.  With a truthy `editors` payload, `ExplorationHandler.put` replaces
the editors list only when the requesting user is the first entry of
`editor_ids`: any successful request implies the requester was that first
entry, and any other requester gets `UnauthorizedUserException` with the
exploration never reaching `exploration.put()`. -/
theorem claim_c6_editors_owner_only (addEditor : Exploration → String → Exploration)
    (user_id : String) (payload : ExpPutPayload) (exploration : Exploration)
    (emails : List String) (hed : payload.editors = some emails) (hne : emails ≠ []) :
    ((∃ e', explorationPut addEditor user_id payload exploration = .ok e') →
      ∃ owner rest, exploration.editor_ids = owner :: rest ∧ user_id = owner)
    ∧ (exploration.editor_ids.head? ≠ some user_id →
      explorationPut addEditor user_id payload exploration =
        .error (.unauthorized ownerOnlyMsg)) := by
  obtain ⟨email, emails', rfl⟩ : ∃ a l, emails = a :: l := by
    cases emails with
    | nil => exact absurd rfl hne
    | cons a l => exact ⟨a, l, rfl⟩
  have he4 : (applySimpleFields payload exploration).editor_ids = exploration.editor_ids :=
    applySimpleFields_editor_ids payload exploration
  constructor
  · rintro ⟨e', h⟩
    simp only [explorationPut, hed] at h
    split at h
    · rename_i owner tail heq
      split at h
      · rename_i hu
        rw [he4] at heq
        exact ⟨owner, tail, heq, hu⟩
      · simp at h
    · simp at h
  · intro hhead
    simp only [explorationPut, hed]
    split
    · rename_i owner tail heq
      rw [he4] at heq
      have hu : user_id ≠ owner := by
        intro h'
        apply hhead
        rw [heq, h']
        rfl
      rw [if_neg hu]
    · rfl

/-- C8.  `ExplorationHandler.put` can only raise `is_public`: as long as the
external `add_editor` method leaves `is_public` alone, a successful request
ends with `is_public` equal to the old value or-ed with the truthiness of the
payload's `is_public`, and over any sequence of put requests a public
exploration never becomes private. -/
theorem claim_c8_is_public_monotone (addEditor : Exploration → String → Exploration)
    (hpub : ∀ e m, (addEditor e m).is_public = e.is_public) :
    (∀ user_id payload e e', explorationPut addEditor user_id payload e = .ok e' →
      e'.is_public = (payload.is_public.truthy || e.is_public))
    ∧ (∀ reqs e, e.is_public = true → (putSeq addEditor reqs e).is_public = true) := by
  have hstep : ∀ user_id payload e e', explorationPut addEditor user_id payload e = .ok e' →
      e'.is_public = (payload.is_public.truthy || e.is_public) := by
    intro uid p e e' h
    simp only [explorationPut] at h
    split at h
    · rename_i email emails heds
      split at h
      · rename_i owner tail heq
        split at h
        · rename_i hu
          simp only [Except.ok.injEq] at h
          subst h
          rw [applyParameters_is_public, foldl_addEditor_field Exploration.is_public addEditor hpub]
          exact applySimpleFields_is_public p e
        · simp at h
      · simp at h
    · simp only [Except.ok.injEq] at h
      subst h
      rw [applyParameters_is_public]
      exact applySimpleFields_is_public p e
  refine ⟨hstep, ?_⟩
  intro reqs
  induction reqs with
  | nil => intro e he; exact he
  | cons r rs ih =>
    intro e he
    have hone : (putStep addEditor r.1 r.2 e).is_public = true := by
      unfold putStep
      cases hres : explorationPut addEditor r.1 r.2 e with
      | error _ => exact he
      | ok e' =>
        rw [hstep r.1 r.2 e e' hres, he]
        simp
    exact ih _ hone

/-- C10.  In a successful `ExplorationHandler.put`, the `image_id` field is
modified only when the key `image_id` is present in the payload (taking the
external `add_editor` to leave `image_id` alone): absent key leaves it
unchanged, a present value equal to the string `null` stores Python `None`,
and any other present value is stored as supplied. -/
theorem claim_c10_image_id_frame (addEditor : Exploration → String → Exploration)
    (himg : ∀ e m, (addEditor e m).image_id = e.image_id)
    (user_id : String) (payload : ExpPutPayload) (e e' : Exploration)
    (h : explorationPut addEditor user_id payload e = .ok e') :
    (payload.image_id = none → e'.image_id = e.image_id)
    ∧ (∀ v, payload.image_id = some v →
      (v = JVal.jstr "null" → e'.image_id = JVal.jnull)
      ∧ (v ≠ JVal.jstr "null" → e'.image_id = v)) := by
  have hmain : e'.image_id = (applySimpleFields payload e).image_id := by
    simp only [explorationPut] at h
    split at h
    · rename_i email emails heds
      split at h
      · rename_i owner tail heq
        split at h
        · rename_i hu
          simp only [Except.ok.injEq] at h
          subst h
          rw [applyParameters_image_id, foldl_addEditor_field Exploration.image_id addEditor himg]
        · simp at h
      · simp at h
    · simp only [Except.ok.injEq] at h
      subst h
      rw [applyParameters_image_id]
  constructor
  · intro hnone
    rw [hmain, applySimpleFields_image_id_none payload e hnone]
  · intro v hv
    rw [hmain, applySimpleFields_image_id_some payload e v hv]
    constructor
    · intro hveq
      subst hveq
      simp [imageIdValue]
    · intro hvne
      cases v with
      | jstr s =>
        have hs : s ≠ "null" := fun hnull => hvne (by rw [hnull])
        simp [imageIdValue, hs]
      | jnull => rfl
      | jbool b => rfl
      | jnum m => rfl
      | jlist xs => rfl

/-! ## Concrete data and witnesses -/

/-- A concrete state whose default rule loops back to the state itself. -/
def sampleState (sid : String) : StateData :=
  { id := sid, name := "State"
    widget := { handlers := [{ default_rule_spec := { dest := sid },
                               rule_specs := [DEFAULT_RULESPEC_STR] }] } }

/-- A concrete exploration with two states. -/
def sampleExp : ExpStats :=
  { id := "e", title := "T", init_state_id := "s0", state_ids := ["s0", "s1"]
    getState := sampleState }

/-- A concrete statistics environment: state `s0` passes both improvement
thresholds with equal counts, state `s1` passes only the default one. -/
def sampleEnv : StatsEnv :=
  { getExploration := fun _ => sampleExp
    getStateCounter := fun _ sid =>
      if sid = "s0" then { first_entry_count := 4, total_entry_count := 10, no_answer_count := 3 }
      else { first_entry_count := 2, total_entry_count := 4, no_answer_count := 0 }
    getAnswerLog := fun _ sid _ =>
      { total_answer_count := if sid = "s0" then 3 else 1, topAnswers := fun _ => [] } }

theorem claim_c1_witness :
    (get_top_improvable_states sampleEnv ["e"] 1).length ≤ 1
    ∧ (get_top_improvable_states sampleEnv ["e"] 1).Pairwise (fun a b => b.rank ≤ a.rank) :=
  ⟨(claim_c1_top_improvable_topN sampleEnv ["e"] 1).1,
   (claim_c1_top_improvable_topN sampleEnv ["e"] 1).2.2⟩

/-- A counter record passing both thresholds with nonzero total. -/
def wCounter : StateCounter :=
  { first_entry_count := 4, total_entry_count := 10, no_answer_count := 3 }

/-- An answer log with three default-rule answers. -/
def wLog : AnswerLog := { total_answer_count := 3, topAnswers := fun _ => [] }

theorem claim_c2_witness :
    wCounter.total_entry_count ≠ 0
    ∧ ((∃ f ∈ stateEligibleFlags wCounter wLog (sampleState "s0"),
          f.improve_type = IMPROVE_TYPE_DEFAULT) ↔
       (wCounter.total_entry_count < 5 * wLog.total_answer_count ∧
        headDefaultDest (sampleState "s0") = some (sampleState "s0").id)) :=
  ⟨by decide, (claim_c2_flag_conditions wCounter wLog (sampleState "s0") (by decide)).1⟩

theorem claim_c9_witness :
    ∃ entry, stateRankedEntry sampleEnv "e" sampleExp "s0" = some entry
      ∧ entry.rank = max
          (sampleEnv.getAnswerLog sampleExp.id "s0" DEFAULT_RULESPEC_STR).total_answer_count
          (sampleEnv.getStateCounter "e" "s0").no_answer_count
      ∧ ((sampleEnv.getAnswerLog sampleExp.id "s0" DEFAULT_RULESPEC_STR).total_answer_count =
            (sampleEnv.getStateCounter "e" "s0").no_answer_count →
          entry.itype = IMPROVE_TYPE_DEFAULT) :=
  claim_c9_both_flags_rank sampleEnv "e" sampleExp "s0" (by decide) (by decide) (by decide)
    (by decide)

theorem claim_c7_witness :
    (export_exploration_stats_to_dict sampleEnv "e").num_visits =
      (sampleEnv.getStateCounter "e"
        (sampleEnv.getExploration "e").init_state_id).first_entry_count :=
  (claim_c7_export_stats sampleEnv "e" (by decide)).1

/-- The identity normalization function, for witnesses. -/
def normalize0 : String → String → JVal → JVal := fun _ _ v => v

/-- A default rule dict (description and name both the default rule name). -/
def defaultRule : RuleDict :=
  { description := DEFAULT_RULE_NAME, name := DEFAULT_RULE_NAME, inputs := []
    dest := .jstr "s", feedback := .jnull }

theorem claim_c3_witness :
    processRuleset normalize0 [defaultRule, defaultRule] =
      .error (.valueError invalidRulesetMsg) :=
  (claim_c3_default_rule_check normalize0 [defaultRule, defaultRule] 0 defaultRule rfl rfl).2
    (Or.inl (by decide)) (fun j _ hj _ => absurd hj (Nat.not_lt_zero j))

/-- A non-default rule dict with one numeric input parameter. -/
def otherRule : RuleDict :=
  { description := "Other", name := "NumEquals", inputs := [("x", .jnum 1)]
    dest := .jstr "s", feedback := .jnull }

theorem claim_c4_witness :
    processRule normalize0 2 0 otherRule = .ok
      { name := otherRule.name
        inputs := otherRule.inputs.map
          (fun p => (p.1, normalizedParamValue normalize0 otherRule.name p.1 p.2))
        dest := otherRule.dest
        feedback := otherRule.feedback } :=
  (claim_c4_rule_normalization normalize0 2 0 otherRule (by decide)).1
    (by
      intro p hp
      simp only [otherRule, List.mem_singleton] at hp
      subst hp
      simp [normalizedParamValue, normalize0, otherRule])

theorem claim_c5_witness :
    newExplorationPost sampleNewEnv "user" (.jstr "t") .jnull "" =
      .error (.invalidInput "No category chosen.") :=
  (claim_c5_new_exploration_validation sampleNewEnv "user" (.jstr "t") .jnull "").2.1 rfl rfl

/-- The external `add_editor`, modelled for witnesses as appending the
email to `editor_ids`. -/
def addEditor0 : Exploration → String → Exploration :=
  fun e m => { e with editor_ids := e.editor_ids ++ [m] }

/-- A concrete stored exploration owned by `owner`. -/
def expl0 : Exploration :=
  { is_public := false, category := .jnull, title := .jnull, image_id := .jstr "img"
    editor_ids := ["owner"], parameters := [] }

/-- A payload whose only field is a one-element editors list. -/
def payloadEditors : ExpPutPayload := { editors := some ["a"] }

theorem claim_c6_witness :
    explorationPut addEditor0 "intruder" payloadEditors expl0 =
      .error (.unauthorized ownerOnlyMsg) :=
  (claim_c6_editors_owner_only addEditor0 "intruder" payloadEditors expl0 ["a"] rfl
    (by simp)).2 (by decide)

/-- A concrete public exploration whose owner is `u`. -/
def pubExpl : Exploration :=
  { is_public := true, category := .jnull, title := .jnull, image_id := .jnull
    editor_ids := ["u"], parameters := [] }

theorem claim_c8_witness :
    (putSeq addEditor0 [("u", payloadEditors)] pubExpl).is_public = true :=
  (claim_c8_is_public_monotone addEditor0 (fun _ _ => rfl)).2 [("u", payloadEditors)] pubExpl rfl

/-- A payload supplying the string value `null` for `image_id`. -/
def payloadImgNull : ExpPutPayload := { image_id := some (.jstr "null") }

/-- `expl0` after `image_id` was reset to Python `None`. -/
def expl0Nulled : Exploration := { expl0 with image_id := .jnull }

theorem claim_c10_witness :
    expl0Nulled.image_id = JVal.jnull :=
  ((claim_c10_image_id_frame addEditor0 (fun _ _ => rfl) "u" payloadImgNull expl0 expl0Nulled
      rfl).2 (JVal.jstr "null") rfl).1 rfl
